import Mathlib

/-!
Shallow embedding of the real-time connection/broadcast subsystem of the
sermo chat backend (`backend/app/api/v1/websockets.py` and
`backend/app/api/v1/voice.py`), with theorems settling the specification
claims about it.

Modelling conventions: a Python `dict` is an insertion-ordered association
list (`d[k] = v` replaces the unique existing entry in place or appends,
`del d[k]` removes the key), a Python `set` is a duplicate-free list
(`add` appends when absent, `discard` removes the element wherever it
occurs). A websocket object is an opaque handle compared by identity; a
send that raises is modelled by a `fails : Socket → Bool` oracle on the
target handle.
-/

namespace Sermo

/-- Opaque transport handle (a WebSocket object); only identity matters. -/
abbrev Socket := Nat

/-- Model of `user.id` (a Python int). -/
abbrev UserId := Int

/-- Model of `channel_id` in websockets.py (a Python int). -/
abbrev ChannelId := Int

/-- Insertion-ordered association list, the model of a Python `dict`. -/
abbrev AList (K V : Type) := List (K × V)

/-- Model of `d.get(k)` / `d[k]`: the value at the first (hence, in a real dict,
only) occurrence of the key. -/
def alookup {K V : Type} [DecidableEq K] : AList K V → K → Option V
  | [], _ => none
  | (k', v) :: rest, k => if k' = k then some v else alookup rest k

/-- Model of `d[k] = v`: replace the existing entry in place, else append. -/
def ains {K V : Type} [DecidableEq K] : AList K V → K → V → AList K V
  | [], k, v => [(k, v)]
  | (k', v') :: rest, k, v =>
      if k' = k then (k, v) :: rest else (k', v') :: ains rest k v

/-- Model of `del d[k]` (our uses are guarded in the source, so absence is a no-op). -/
def adel {K V : Type} [DecidableEq K] (l : AList K V) (k : K) : AList K V :=
  l.filter (fun p => decide (p.1 ≠ k))

/-- Model of `s.add(x)` on a Python set modelled as a duplicate-free list. -/
def sadd {α : Type} [DecidableEq α] (l : List α) (x : α) : List α :=
  if x ∈ l then l else l ++ [x]

/-- Model of `s.discard(x)`. -/
def sdisc {α : Type} [DecidableEq α] (l : List α) (x : α) : List α :=
  l.filter (fun y => decide (y ≠ x))

/-- Model of `{"muted": bool, "speaking": bool}` — the per-user voice state kept at
module level in websockets.py. -/
structure VState where
  muted : Bool
  speaking : Bool
  deriving DecidableEq, Repr

/-- The JSON frames the subsystem sends, with payloads reduced to the data
the claims are about (an opaque broadcast body is just a number). -/
inductive Frame where
  | connectionEstablished (userId : UserId)
  | channelJoined (channelId : ChannelId)
  | payload (m : Nat)
  | userStatus (userId : UserId) (status : String)
  | pong
  | errorFrame (message : String)
  | voiceStateUpdate (userId : UserId) (channelId : ChannelId) (event : String) (st : VState)
  | voiceParticipantsList (channelId : String)
  | voiceJoin (userId : String) (channelId : String)
  deriving DecidableEq, Repr

/-- Observable transport effects of an operation, in program order. -/
inductive Ev where
  | closed (ws : Socket)
  | sentJson (ws : Socket) (f : Frame)
  | sentBytes (ws : Socket)
  deriving DecidableEq, Repr

/-- The mutable state of `ConnectionManager` (websockets.py):
`active_connections : user_id -> WebSocket`,
`channel_members : channel_id -> Set[user_id]`,
`channel_connections : channel_id -> Dict[user_id, WebSocket]`. -/
structure CMState where
  active_connections : AList UserId Socket
  channel_members : AList ChannelId (List UserId)
  channel_connections : AList ChannelId (AList UserId Socket)
  deriving DecidableEq, Repr

/-- Model of `ConnectionManager.connect`: when the user already has a connection,
close it (best effort) and delete the user's entry from every channel's
connection map — `channel_members` is not touched; then register the new
websocket and send `connection_established` (a failing send raises after
the registration has happened). -/
def connect (websocket : Socket) (user_id : UserId) (fails : Socket → Bool)
    (s : CMState) : CMState × List Ev :=
  let evict :=
    (match alookup s.active_connections user_id with
    | some old_ws =>
        let cc' := s.channel_connections.map
          (fun (p : ChannelId × AList UserId Socket) => (p.1, adel p.2 user_id))
        ({ s with channel_connections := cc' }, [Ev.closed old_ws])
    | none => (s, []))
  let act2 := ains evict.1.active_connections user_id websocket
  let s2 := { evict.1 with active_connections := act2 }
  if fails websocket then (s2, evict.2)
  else (s2, evict.2 ++ [Ev.sentJson websocket (Frame.connectionEstablished user_id)])

/-- Model of `ConnectionManager.leave_channel`: discard the user from the channel's
member set, delete its connection entry, and drop the channel's two
entries entirely when the member set became empty. -/
def leave_channel (channel_id : ChannelId) (user_id : UserId) (s : CMState) : CMState :=
  match alookup s.channel_members channel_id with
  | none => s
  | some mem =>
    let mem' := sdisc mem user_id
    let conns' :=
      (match alookup s.channel_connections channel_id with
      | some cc =>
          if (alookup cc user_id).isSome then
            ains s.channel_connections channel_id (adel cc user_id)
          else s.channel_connections
      | none => s.channel_connections)
    if mem'.isEmpty then
      { s with channel_members := adel s.channel_members channel_id,
               channel_connections := adel conns' channel_id }
    else
      { s with channel_members := ains s.channel_members channel_id mem',
               channel_connections := conns' }

/-- One iteration of the channel-cleanup loop in
`ConnectionManager.disconnect`; its body is statement-for-statement the
body of `leave_channel`, guarded by `user_id in channel_members[cid]`.
(The loop iterates a snapshot of the key list and each iteration deletes
at most its own key, so the lookup cannot miss in the source; `none => s`
models that unreachable branch.) -/
def disconnectStep (user_id : UserId) (s : CMState) (channel_id : ChannelId) : CMState :=
  match alookup s.channel_members channel_id with
  | none => s
  | some mem => if user_id ∈ mem then leave_channel channel_id user_id s else s

/-- Model of `ConnectionManager.disconnect`: drop the registry entry, then remove
the user from every channel (snapshot of the key list), deleting channels
left empty. -/
def disconnect (user_id : UserId) (s : CMState) : CMState :=
  let s0 := { s with active_connections := adel s.active_connections user_id }
  (s.channel_members.map Prod.fst).foldl (disconnectStep user_id) s0

/-- Model of `ConnectionManager.join_channel`: add the user to the channel's member
set and connection map, then send `channel_joined`; a failing send raises
(caught by the caller) with the state already mutated. -/
def join_channel (channel_id : ChannelId) (user_id : UserId) (websocket : Socket)
    (fails : Socket → Bool) (s : CMState) : CMState × List Ev × Bool :=
  let mem := (alookup s.channel_members channel_id).getD []
  let cc := (alookup s.channel_connections channel_id).getD []
  let mems' := ains s.channel_members channel_id (sadd mem user_id)
  let conns' := ains s.channel_connections channel_id (ains cc user_id websocket)
  let s' := { s with channel_members := mems', channel_connections := conns' }
  if fails websocket then (s', [], false)
  else (s', [Ev.sentJson websocket (Frame.channelJoined channel_id)], true)

/-- The Python truthiness test
`if exclude_user_id and user_id == exclude_user_id` in
`broadcast_to_channel`: `None` and `0` are both falsy, so an exclusion id
of `0` never matches. -/
def pyExcluded (exclude_user_id : Option UserId) (user_id : UserId) : Bool :=
  match exclude_user_id with
  | none => false
  | some e => decide (e ≠ 0) && decide (user_id = e)

/-- The `(user_id, websocket)` pairs the send loop of
`broadcast_to_channel` iterates over: the channel's connection entries
minus the excluded user. The registry `active_connections` is not
consulted. -/
def bcTargets (channel_id : ChannelId) (exclude_user_id : Option UserId)
    (s : CMState) : AList UserId Socket :=
  match alookup s.channel_connections channel_id with
  | none => []
  | some cc => cc.filter (fun p => !pyExcluded exclude_user_id p.1)

/-- The stale-connection cleanup loop at the end of
`broadcast_to_channel`: for each user whose send raised, delete its entry
from this channel's connection map, then discard it from this channel's
member set. Looking up a missing member set raises `KeyError`, which the
surrounding handler swallows, aborting the rest of the loop (the
connection-map lookup cannot miss: the loop runs inside the branch where
the channel key is present and never deletes it). First half of one
iteration:
`if user_id in channel_connections[cid]: del channel_connections[cid][user_id]`. -/
def bcCleanConn (channel_id : ChannelId) (s : CMState) (user_id : UserId) : CMState :=
  match alookup s.channel_connections channel_id with
  | some cc =>
      if (alookup cc user_id).isSome then
        let cc' := ains s.channel_connections channel_id (adel cc user_id)
        { s with channel_connections := cc' }
      else s
  | none => s

/-- Second half of one cleanup iteration:
`if user_id in channel_members[cid]: channel_members[cid].discard(user_id)`,
given the member set that was looked up. -/
def bcCleanMem (channel_id : ChannelId) (s : CMState) (user_id : UserId)
    (mem : List UserId) : CMState :=
  if user_id ∈ mem then
    let mem' := ains s.channel_members channel_id (sdisc mem user_id)
    { s with channel_members := mem' }
  else s

def bcCleanup (channel_id : ChannelId) : CMState → List UserId → CMState
  | s, [] => s
  | s, user_id :: rest =>
    let s1 := bcCleanConn channel_id s user_id
    match alookup s1.channel_members channel_id with
    | none => s1
    | some mem => bcCleanup channel_id (bcCleanMem channel_id s1 user_id mem) rest

/-- The frames the send loop of `broadcast_to_channel` delivers: one copy
of the message per non-excluded target whose send does not raise. -/
def bcEvents (channel_id : ChannelId) (message : Nat)
    (exclude_user_id : Option UserId) (fails : Socket → Bool)
    (s : CMState) : List Ev :=
  (bcTargets channel_id exclude_user_id s).filterMap (fun p =>
    if fails p.2 then none else some (Ev.sentJson p.2 (Frame.payload message)))

/-- Model of `users_to_remove` in `broadcast_to_channel`: the targets whose send
raised, in delivery order. -/
def bcFailedUsers (channel_id : ChannelId) (exclude_user_id : Option UserId)
    (fails : Socket → Bool) (s : CMState) : List UserId :=
  ((bcTargets channel_id exclude_user_id s).filter (fun p => fails p.2)).map Prod.fst

/-- Model of `ConnectionManager.broadcast_to_channel`: send `message` to every
connection of the channel except the excluded user (each send has its own
try/except), collect the users whose send raised, then run the
stale-connection cleanup on them. -/
def broadcast_to_channel (channel_id : ChannelId) (message : Nat)
    (exclude_user_id : Option UserId) (fails : Socket → Bool)
    (s : CMState) : CMState × List Ev :=
  match alookup s.channel_connections channel_id with
  | none => (s, [])
  | some _ =>
    (bcCleanup channel_id s (bcFailedUsers channel_id exclude_user_id fails s),
     bcEvents channel_id message exclude_user_id fails s)

/-- The send loop of `ConnectionManager.broadcast_presence`: there is no
per-target try/except, so a failing `send_json` raises out of the loop and
delivery stops at the first failed connection. Returns the delivered
events and whether the loop completed without raising. -/
def presenceLoop (user_id : UserId) (status : String) (fails : Socket → Bool) :
    List Socket → List Ev × Bool
  | [] => ([], true)
  | ws :: rest =>
    if fails ws then ([], false)
    else
      let r := presenceLoop user_id status fails rest
      (Ev.sentJson ws (Frame.userStatus user_id status) :: r.1, r.2)

/-- Model of `ConnectionManager.broadcast_presence`: send the `USER_STATUS` message
to every value of `active_connections`, unguarded. -/
def broadcast_presence (user_id : UserId) (status : String)
    (fails : Socket → Bool) (s : CMState) : List Ev × Bool :=
  presenceLoop user_id status fails (s.active_connections.map Prod.snd)

/-- The module-level voice dictionaries of websockets.py:
`voice_channels : channel_id -> Set[WebSocket]`,
`voice_channel_users : channel_id -> Set[user_id]`,
`voice_states : user_id -> {"muted", "speaking"}`. -/
structure VoiceGlobals where
  voice_channels : AList ChannelId (List Socket)
  voice_channel_users : AList ChannelId (List UserId)
  voice_states : AList UserId VState
  deriving DecidableEq, Repr

/-- Model of `broadcast_voice_state_update` (websockets.py): send the
`voice_state_update` message to every socket of the voice channel, the
subject included, each send with its own try/except; the state field falls
back to unmuted/not-speaking when the user has no entry. -/
def broadcast_voice_state_update (channel_id : ChannelId) (user_id : UserId)
    (event : String) (fails : Socket → Bool) (g : VoiceGlobals) : List Ev :=
  match alookup g.voice_channels channel_id with
  | none => []
  | some chanSet =>
    let st := (alookup g.voice_states user_id).getD ⟨false, false⟩
    chanSet.filterMap (fun ws =>
      if fails ws then none
      else some (Ev.sentJson ws (Frame.voiceStateUpdate user_id channel_id event st)))

/-- Model of `join_voice_channel` (websockets.py): create the channel's two entries
when absent, add the socket and the user, unconditionally reset the user's
voice state to `{"muted": False, "speaking": False}`, then announce
`"joined"`. -/
def join_voice_channel (websocket : Socket) (channel_id : ChannelId)
    (user_id : UserId) (fails : Socket → Bool) (g : VoiceGlobals) :
    VoiceGlobals × List Ev :=
  let chans := (alookup g.voice_channels channel_id).getD []
  let users := (alookup g.voice_channel_users channel_id).getD []
  let g' : VoiceGlobals :=
    { voice_channels := ains g.voice_channels channel_id (sadd chans websocket),
      voice_channel_users := ains g.voice_channel_users channel_id (sadd users user_id),
      voice_states := ains g.voice_states user_id ⟨false, false⟩ }
  (g', broadcast_voice_state_update channel_id user_id "joined" fails g')

/-- Model of `broadcast_voice` (websockets.py): relay the audio bytes to every
socket of the voice channel other than the sender's socket; the sender's
`voice_states` entry (its muted flag included) is never consulted. -/
def broadcast_voice (sender_ws : Socket) (channel_id : ChannelId)
    (fails : Socket → Bool) (g : VoiceGlobals) : List Ev :=
  match alookup g.voice_channels channel_id with
  | none => []
  | some chanSet =>
    (chanSet.filter (fun ws => decide (ws ≠ sender_ws))).filterMap
      (fun ws => if fails ws then none else some (Ev.sentBytes ws))

/-- The whole mutable module state of websockets.py: the
`ConnectionManager` singleton plus the module-level voice dictionaries. -/
structure World where
  cm : CMState
  vg : VoiceGlobals
  deriving DecidableEq, Repr

/-- Model of `ConnectionManager.connect` at module level: its body references only
the manager's own fields, so the voice dictionaries pass through
untouched. -/
def worldConnect (websocket : Socket) (user_id : UserId) (fails : Socket → Bool)
    (w : World) : World × List Ev :=
  let r := connect websocket user_id fails w.cm
  (⟨r.1, w.vg⟩, r.2)

/-- The persistent per-user status column, as far as the endpoint writes
it (`user.status = ...; db.commit()`). -/
structure EndpointState where
  cm : CMState
  dbStatus : AList UserId String
  deriving DecidableEq, Repr

/-- The `finally` block of `websocket_endpoint`, the disconnect cascade:
`manager.disconnect(user.id)`, mark the user offline in the database, then
unconditionally `broadcast_presence(user.id, "offline")`. -/
def disconnectCascade (user_id : UserId) (fails : Socket → Bool)
    (e : EndpointState) : EndpointState × List Ev :=
  let cm' := disconnect user_id e.cm
  let db' := ains e.dbStatus user_id "offline"
  (⟨cm', db'⟩, (broadcast_presence user_id "offline" fails cm').1)

/-- One inbound frame as classified by the `websocket_endpoint` read loop:
the five recognised `"type"` values, any other value, or a frame
`receive_json` could not parse (`json.JSONDecodeError`). -/
inductive Inbound where
  | ping
  | joinChannel (channel_id : ChannelId)
  | leaveChannel (channel_id : ChannelId)
  | addReaction (channel_id : ChannelId) (m : Nat)
  | removeReaction (channel_id : ChannelId) (m : Nat)
  | unknownType (t : String)
  | malformedJson
  deriving DecidableEq, Repr

/-- One iteration of the `websocket_endpoint` read loop on an inbound
frame: the new manager state, the frames sent, and whether the loop
continues (it breaks only on `WebSocketDisconnect`; every handled
exception — unknown type, bad JSON, validation error — just logs and
continues, sending nothing). -/
def handleInbound (own_ws : Socket) (user_id : UserId) (fails : Socket → Bool)
    (s : CMState) : Inbound → CMState × List Ev × Bool
  | .ping => (s, if fails own_ws then [] else [Ev.sentJson own_ws Frame.pong], true)
  | .joinChannel cid =>
      let r := join_channel cid user_id own_ws fails s
      (r.1, r.2.1, true)
  | .leaveChannel cid => (leave_channel cid user_id s, [], true)
  | .addReaction cid m =>
      let r := broadcast_to_channel cid m none fails s
      (r.1, r.2, true)
  | .removeReaction cid m =>
      let r := broadcast_to_channel cid m none fails s
      (r.1, r.2, true)
  | .unknownType _ => (s, [], true)
  | .malformedJson => (s, [], true)

/-- One `ConnectionManager` API call, for reachability over call
sequences. -/
inductive Op where
  | connect (websocket : Socket) (user_id : UserId)
  | disconnect (user_id : UserId)
  | join (channel_id : ChannelId) (user_id : UserId) (websocket : Socket)
  | leave (channel_id : ChannelId) (user_id : UserId)
  | broadcast (channel_id : ChannelId) (message : Nat) (exclude_user_id : Option UserId)

/-- Apply one API call to the manager state. -/
def applyOp (fails : Socket → Bool) (s : CMState) : Op → CMState
  | .connect ws uid => (connect ws uid fails s).1
  | .disconnect uid => disconnect uid s
  | .join cid uid ws => (join_channel cid uid ws fails s).1
  | .leave cid uid => leave_channel cid uid s
  | .broadcast cid m ex => (broadcast_to_channel cid m ex fails s).1

/-- The freshly constructed `ConnectionManager()`: three empty dicts. -/
def initState : CMState := ⟨[], [], []⟩

/-- The state after a sequence of API calls from the initial state. -/
def run (fails : Socket → Bool) (ops : List Op) : CMState :=
  ops.foldl (applyOp fails) initState

namespace Voice

/-- Model of `VoiceState` (voice.py). -/
structure VoiceState where
  speaking : Bool
  muted : Bool
  deriving DecidableEq, Repr

/-- A row of the external users table, as voice.py reads it. -/
structure VUser where
  id : Int
  username : String
  status : String
  deriving DecidableEq, Repr

/-- The state of `VoiceConnectionManager` (voice.py); keys are strings
(`channel_id` from the URL path, `str(user.id)` for users). -/
structure VCMState where
  active_connections : AList String (AList String Socket)
  channel_participants : AList String (AList String VUser)
  voice_states : AList String (AList String VoiceState)
  deriving DecidableEq, Repr

/-- Model of `VoiceConnectionManager.broadcast_to_channel` (voice.py): send the
message to every connection of the channel whose user id differs from the
excluded one (`str != None` is true, so `None` excludes nobody), each send
with its own try/except. -/
def vbroadcastToChannel (channel_id : String) (f : Frame)
    (exclude_user_id : Option String) (fails : Socket → Bool)
    (s : VCMState) : List Ev :=
  match alookup s.active_connections channel_id with
  | none => []
  | some conns =>
    conns.filterMap (fun p =>
      if exclude_user_id = some p.1 then none
      else if fails p.2 then none else some (Ev.sentJson p.2 f))

/-- Model of `VoiceConnectionManager.connect` (voice.py): close any previous
connection of this user in this channel, create the channel's three
entries when absent, register the socket, the participant row and a fresh
`VoiceState(speaking=False, muted=False)` — unconditionally, so a muted
flag never survives a leave/rejoin —, send the participants list to the
joiner, then announce the join to the other participants. -/
def connect (websocket : Socket) (channel_id : String) (user : VUser)
    (fails : Socket → Bool) (s : VCMState) : VCMState × List Ev :=
  let user_id := toString user.id
  let closeEvs :=
    (match alookup s.active_connections channel_id with
    | some conns =>
        (match alookup conns user_id with
        | some old_ws => [Ev.closed old_ws]
        | none => [])
    | none => [])
  let conns := (alookup s.active_connections channel_id).getD []
  let parts := (alookup s.channel_participants channel_id).getD []
  let vsts := (alookup s.voice_states channel_id).getD []
  let s' : VCMState :=
    { active_connections := ains s.active_connections channel_id (ains conns user_id websocket),
      channel_participants := ains s.channel_participants channel_id (ains parts user_id user),
      voice_states := ains s.voice_states channel_id (ains vsts user_id ⟨false, false⟩) }
  let listEvs :=
    if fails websocket then []
    else [Ev.sentJson websocket (Frame.voiceParticipantsList channel_id)]
  let joinEvs := vbroadcastToChannel channel_id (Frame.voiceJoin user_id channel_id)
    (some user_id) fails s'
  (s', closeEvs ++ listEvs ++ joinEvs)

/-- Model of `VoiceConnectionManager.broadcast_voice_data` (voice.py): return
without sending anything when the sender has no voice state in this
channel or is muted; otherwise relay the bytes to every channel connection
whose user id differs from the sender's, each send with its own
try/except. (When the channel key is missing from `voice_states` the
source raises `KeyError` before any send, which its caller swallows, so
the observable sends are also none; the keys of `active_connections` and
`voice_states` coincide in every state the manager constructs.) -/
def broadcast_voice_data (channel_id : String) (sender_id : String)
    (fails : Socket → Bool) (s : VCMState) : List Ev :=
  match alookup s.active_connections channel_id with
  | none => []
  | some conns =>
    match alookup ((alookup s.voice_states channel_id).getD []) sender_id with
    | none => []
    | some vs =>
      if vs.muted then []
      else
        (conns.filter (fun p => decide (p.1 ≠ sender_id))).filterMap
          (fun p => if fails p.2 then none else some (Ev.sentBytes p.2))

end Voice

/-! ### Association-list and set lemmas -/

theorem alookup_ains_self {K V : Type} [DecidableEq K] (l : AList K V) (k : K) (v : V) :
    alookup (ains l k v) k = some v := by
  induction l with
  | nil => simp [ains, alookup]
  | cons p rest ih =>
    by_cases h : p.1 = k
    · simp [ains, h, alookup]
    · simp [ains, h, alookup, ih]

theorem alookup_ains_ne {K V : Type} [DecidableEq K] (l : AList K V) {k k' : K}
    (v : V) (h : k ≠ k') : alookup (ains l k v) k' = alookup l k' := by
  induction l with
  | nil => simp [ains, alookup, h]
  | cons p rest ih =>
    by_cases hp : p.1 = k
    · simp [ains, hp, alookup, h]
    · simp [ains, hp, alookup, ih]

theorem alookup_adel_self {K V : Type} [DecidableEq K] (l : AList K V) (k : K) :
    alookup (adel l k) k = none := by
  induction l with
  | nil => simp [adel, alookup]
  | cons p rest ih =>
    by_cases hp : p.1 = k
    · simpa [adel, hp] using ih
    · simpa [adel, alookup, hp] using ih

theorem alookup_adel_ne {K V : Type} [DecidableEq K] (l : AList K V) {k k' : K}
    (h : k ≠ k') : alookup (adel l k) k' = alookup l k' := by
  induction l with
  | nil => simp [adel, alookup]
  | cons p rest ih =>
    by_cases hp : p.1 = k
    · simpa [adel, List.filter_cons, alookup, hp, h] using ih
    · by_cases hq : p.1 = k'
      · simp [adel, List.filter_cons, alookup, hp, hq, Ne.symm h]
      · simpa [adel, List.filter_cons, alookup, hp, hq] using ih

theorem adel_adel {K V : Type} [DecidableEq K] (l : AList K V) (k : K) :
    adel (adel l k) k = adel l k := by
  simp [adel, List.filter_filter]

theorem ains_ains {K V : Type} [DecidableEq K] (l : AList K V) (k : K) (v v' : V) :
    ains (ains l k v) k v' = ains l k v' := by
  induction l with
  | nil => simp [ains]
  | cons p rest ih =>
    by_cases hp : p.1 = k
    · simp [ains, hp]
    · simp [ains, hp, ih]

theorem mem_adel {K V : Type} [DecidableEq K] {l : AList K V} {k : K} {p : K × V}
    (h : p ∈ adel l k) : p ∈ l ∧ p.1 ≠ k := by
  simpa [adel] using (List.mem_filter.mp h)

theorem alookup_none_adel {K V : Type} [DecidableEq K] {l : AList K V} {u : K}
    (h : alookup l u = none) (k : K) : alookup (adel l k) u = none := by
  induction l with
  | nil => simp [adel, alookup]
  | cons p rest ih =>
    by_cases hu : p.1 = u
    · simp [alookup, hu] at h
    · simp [alookup, hu] at h
      by_cases hk : p.1 = k
      · simpa [adel, hk] using ih h
      · simpa [adel, alookup, hk, hu] using ih h

theorem alookup_some_mem_keys {K V : Type} [DecidableEq K] {l : AList K V} {k : K}
    {v : V} (h : alookup l k = some v) : k ∈ l.map Prod.fst := by
  induction l with
  | nil => simp [alookup] at h
  | cons p rest ih =>
    by_cases hp : p.1 = k
    · simp [hp]
    · simp [alookup, hp] at h
      simpa using Or.inr (ih h)

theorem alookup_map_snd {K V W : Type} [DecidableEq K] (l : AList K V) (f : V → W)
    (k : K) : alookup (l.map (fun p => (p.1, f p.2))) k = (alookup l k).map f := by
  induction l with
  | nil => simp [alookup]
  | cons p rest ih =>
    by_cases hp : p.1 = k
    · simp [alookup, hp]
    · simp [alookup, hp, ih]

theorem mem_sdisc {α : Type} [DecidableEq α] {l : List α} {x y : α} :
    y ∈ sdisc l x ↔ y ∈ l ∧ y ≠ x := by
  simp [sdisc, List.mem_filter]

theorem not_mem_sdisc_self {α : Type} [DecidableEq α] (l : List α) (x : α) :
    x ∉ sdisc l x := by
  intro h
  exact (mem_sdisc.mp h).2 rfl

theorem not_mem_sdisc {α : Type} [DecidableEq α] {l : List α} {u : α}
    (h : u ∉ l) (x : α) : u ∉ sdisc l x := fun hm => h (mem_sdisc.mp hm).1

theorem mem_sadd_self {α : Type} [DecidableEq α] (l : List α) (x : α) :
    x ∈ sadd l x := by
  by_cases h : x ∈ l <;> simp [sadd, h]

theorem sadd_eq_of_mem {α : Type} [DecidableEq α] {l : List α} {x : α}
    (h : x ∈ l) : sadd l x = l := by
  simp [sadd, h]

/-! ### Lemmas about the broadcast cleanup loop -/

theorem bcCleanConn_active (c : ChannelId) (s : CMState) (u : UserId) :
    (bcCleanConn c s u).active_connections = s.active_connections := by
  unfold bcCleanConn
  split
  · split <;> rfl
  · rfl

theorem bcCleanConn_members (c : ChannelId) (s : CMState) (u : UserId) :
    (bcCleanConn c s u).channel_members = s.channel_members := by
  unfold bcCleanConn
  split
  · split <;> rfl
  · rfl

theorem bcCleanConn_lookup_ne (c : ChannelId) (s : CMState) (u : UserId)
    {c' : ChannelId} (h : c' ≠ c) :
    alookup (bcCleanConn c s u).channel_connections c' =
      alookup s.channel_connections c' := by
  unfold bcCleanConn
  split
  · split
    · exact alookup_ains_ne _ _ (Ne.symm h)
    · rfl
  · rfl

theorem bcCleanConn_clears (c : ChannelId) (s : CMState) (u : UserId) :
    alookup ((alookup (bcCleanConn c s u).channel_connections c).getD []) u = none := by
  unfold bcCleanConn
  split
  · rename_i cc hcc
    split
    · simp only [alookup_ains_self, Option.getD_some]
      exact alookup_adel_self cc u
    · rename_i hu
      rw [hcc]
      simpa using Option.not_isSome_iff_eq_none.mp hu
  · rename_i hcc
    simp [hcc, alookup]

theorem bcCleanConn_keeps_clear (c : ChannelId) (s : CMState) (u u' : UserId)
    (h : alookup ((alookup s.channel_connections c).getD []) u = none) :
    alookup ((alookup (bcCleanConn c s u').channel_connections c).getD []) u = none := by
  unfold bcCleanConn
  split
  · rename_i cc hcc
    rw [hcc] at h
    split
    · simp only [alookup_ains_self, Option.getD_some]
      exact alookup_none_adel (by simpa using h) u'
    · rw [hcc]; exact h
  · exact h

theorem bcCleanMem_active (c : ChannelId) (s : CMState) (u : UserId) (mem : List UserId) :
    (bcCleanMem c s u mem).active_connections = s.active_connections := by
  unfold bcCleanMem
  split <;> rfl

theorem bcCleanMem_conns (c : ChannelId) (s : CMState) (u : UserId) (mem : List UserId) :
    (bcCleanMem c s u mem).channel_connections = s.channel_connections := by
  unfold bcCleanMem
  split <;> rfl

theorem bcCleanMem_lookup_ne (c : ChannelId) (s : CMState) (u : UserId)
    (mem : List UserId) {c' : ChannelId} (h : c' ≠ c) :
    alookup (bcCleanMem c s u mem).channel_members c' =
      alookup s.channel_members c' := by
  unfold bcCleanMem
  split
  · exact alookup_ains_ne _ _ (Ne.symm h)
  · rfl

theorem bcCleanup_active (c : ChannelId) :
    ∀ (us : List UserId) (s : CMState),
    (bcCleanup c s us).active_connections = s.active_connections := by
  intro us
  induction us with
  | nil => intro s; rfl
  | cons u rest ih =>
    intro s
    rw [bcCleanup]
    split
    · exact bcCleanConn_active c s u
    · rw [ih, bcCleanMem_active, bcCleanConn_active]

theorem bcCleanup_lookup_ne (c : ChannelId) :
    ∀ (us : List UserId) (s : CMState) {c' : ChannelId}, c' ≠ c →
    alookup (bcCleanup c s us).channel_members c' = alookup s.channel_members c' ∧
    alookup (bcCleanup c s us).channel_connections c' = alookup s.channel_connections c' := by
  intro us
  induction us with
  | nil => intro s c' _; exact ⟨rfl, rfl⟩
  | cons u rest ih =>
    intro s c' h
    rw [bcCleanup]
    split
    · constructor
      · rw [bcCleanConn_members]
      · exact bcCleanConn_lookup_ne c s u h
    · rename_i mem _
      rcases ih (bcCleanMem c (bcCleanConn c s u) u mem) h with ⟨h1, h2⟩
      constructor
      · rw [h1, bcCleanMem_lookup_ne _ _ _ _ h, bcCleanConn_members]
      · rw [h2, bcCleanMem_conns, bcCleanConn_lookup_ne c s u h]

theorem bcCleanup_keeps_clear (c : ChannelId) :
    ∀ (us : List UserId) (s : CMState) (u : UserId),
    alookup ((alookup s.channel_connections c).getD []) u = none →
    u ∉ (alookup s.channel_members c).getD [] →
    alookup ((alookup (bcCleanup c s us).channel_connections c).getD []) u = none ∧
    u ∉ (alookup (bcCleanup c s us).channel_members c).getD [] := by
  intro us
  induction us with
  | nil => intro s u h1 h2; exact ⟨h1, h2⟩
  | cons u0 rest ih =>
    intro s u h1 h2
    rw [bcCleanup]
    split
    · refine ⟨bcCleanConn_keeps_clear c s u u0 h1, ?_⟩
      rw [bcCleanConn_members]; exact h2
    · rename_i mem hmem
      apply ih
      · rw [bcCleanMem_conns]
        exact bcCleanConn_keeps_clear c s u u0 h1
      · have h2' : u ∉ (alookup (bcCleanConn c s u0).channel_members c).getD [] := by
          rw [bcCleanConn_members]; exact h2
        unfold bcCleanMem
        split
        · rw [alookup_ains_self]
          simp only [Option.getD_some]
          refine not_mem_sdisc ?_ u0
          rw [hmem] at h2'
          simpa using h2'
        · exact h2'

theorem bcCleanup_clears (c : ChannelId) :
    ∀ (us : List UserId) (s : CMState), (alookup s.channel_members c).isSome →
    ∀ u ∈ us,
      alookup ((alookup (bcCleanup c s us).channel_connections c).getD []) u = none ∧
      u ∉ (alookup (bcCleanup c s us).channel_members c).getD [] := by
  intro us
  induction us with
  | nil => intro s _ u hu; cases hu
  | cons u0 rest ih =>
    intro s hm u hu
    rw [bcCleanup]
    split
    · rename_i hnone
      rw [bcCleanConn_members] at hnone
      rw [hnone] at hm
      cases hm
    · rename_i mem hmem
      rcases List.mem_cons.mp hu with rfl | hurest
      · apply bcCleanup_keeps_clear
        · rw [bcCleanMem_conns]
          exact bcCleanConn_clears c s u
        · unfold bcCleanMem
          split
          · rw [alookup_ains_self]
            simp only [Option.getD_some]
            exact not_mem_sdisc_self mem u
          · rename_i hno
            rw [hmem]
            simpa using hno
      · apply ih
        · unfold bcCleanMem
          split
          · rw [alookup_ains_self]; rfl
          · rw [hmem]; rfl
        · exact hurest

/-! ### Lemmas about leave_channel, disconnect and the other operations -/

theorem leave_channel_active (c : ChannelId) (u : UserId) (s : CMState) :
    (leave_channel c u s).active_connections = s.active_connections := by
  unfold leave_channel
  dsimp only
  repeat' split
  all_goals rfl

theorem leave_channel_members_ne (c : ChannelId) (u : UserId) (s : CMState)
    {c' : ChannelId} (h : c' ≠ c) :
    alookup (leave_channel c u s).channel_members c' = alookup s.channel_members c' := by
  unfold leave_channel
  dsimp only
  repeat' split
  all_goals
    first
      | rfl
      | exact alookup_adel_ne _ (Ne.symm h)
      | exact alookup_ains_ne _ _ (Ne.symm h)

theorem leave_channel_clean_at_key (c : ChannelId) (u : UserId) (s : CMState) :
    ∀ mem', alookup (leave_channel c u s).channel_members c = some mem' → u ∉ mem' := by
  intro mem' hl
  unfold leave_channel at hl
  split at hl
  · rename_i hn
    rw [hn] at hl
    cases hl
  · rename_i mem hm
    dsimp only at hl
    repeat' split at hl
    all_goals dsimp only at hl
    all_goals
      first
        | (rw [alookup_adel_self] at hl; cases hl)
        | (rw [alookup_ains_self] at hl; cases hl; exact not_mem_sdisc_self _ u)

theorem disconnectStep_active (u : UserId) (s : CMState) (k : ChannelId) :
    (disconnectStep u s k).active_connections = s.active_connections := by
  unfold disconnectStep
  split
  · rfl
  · split
    · exact leave_channel_active k u s
    · rfl

theorem disconnectStep_members_ne (u : UserId) (s : CMState) (k : ChannelId)
    {c' : ChannelId} (h : c' ≠ k) :
    alookup (disconnectStep u s k).channel_members c' = alookup s.channel_members c' := by
  unfold disconnectStep
  split
  · rfl
  · split
    · exact leave_channel_members_ne k u s h
    · rfl

theorem disconnectStep_clean_at_key (u : UserId) (s : CMState) (k : ChannelId) :
    ∀ mem', alookup (disconnectStep u s k).channel_members k = some mem' → u ∉ mem' := by
  unfold disconnectStep
  split
  · rename_i hn
    intro mem' hl
    rw [hn] at hl
    cases hl
  · rename_i mem hm
    split
    · exact leave_channel_clean_at_key k u s
    · rename_i hno
      intro mem' hl
      rw [hm] at hl
      cases hl
      exact hno

theorem disconnectStep_id_of_clean (u : UserId) (k : ChannelId) (s : CMState)
    (h : ∀ mem, alookup s.channel_members k = some mem → u ∉ mem) :
    disconnectStep u s k = s := by
  unfold disconnectStep
  split
  · rfl
  · rename_i mem hm
    rw [if_neg (h mem hm)]

theorem foldl_disconnectStep_active (u : UserId) :
    ∀ (ks : List ChannelId) (t : CMState),
    (ks.foldl (disconnectStep u) t).active_connections = t.active_connections := by
  intro ks
  induction ks with
  | nil => intro t; rfl
  | cons k rest ih =>
    intro t
    rw [List.foldl_cons, ih, disconnectStep_active]

theorem foldl_disconnectStep_clean (u : UserId) :
    ∀ (ks : List ChannelId) (t : CMState),
    (∀ cid mem, alookup t.channel_members cid = some mem → u ∉ mem ∨ cid ∈ ks) →
    ∀ cid mem, alookup ((ks.foldl (disconnectStep u) t)).channel_members cid = some mem →
      u ∉ mem := by
  intro ks
  induction ks with
  | nil =>
    intro t h cid mem hl
    rcases h cid mem hl with h' | h'
    · exact h'
    · cases h'
  | cons k rest ih =>
    intro t h
    apply ih
    intro cid mem hl
    by_cases hc : cid = k
    · subst hc
      exact Or.inl (disconnectStep_clean_at_key u t cid mem hl)
    · rw [disconnectStep_members_ne u t k hc] at hl
      rcases h cid mem hl with h' | h'
      · exact Or.inl h'
      · rcases List.mem_cons.mp h' with rfl | hr
        · exact absurd rfl hc
        · exact Or.inr hr

theorem foldl_disconnectStep_id (u : UserId) :
    ∀ (ks : List ChannelId) (t : CMState),
    (∀ cid mem, alookup t.channel_members cid = some mem → u ∉ mem) →
    ks.foldl (disconnectStep u) t = t := by
  intro ks
  induction ks with
  | nil => intro t _; rfl
  | cons k rest ih =>
    intro t h
    rw [List.foldl_cons, disconnectStep_id_of_clean u k t (fun mem => h k mem), ih t h]

theorem disconnect_active (u : UserId) (s : CMState) :
    (disconnect u s).active_connections = adel s.active_connections u := by
  unfold disconnect
  rw [foldl_disconnectStep_active]

theorem disconnect_clean (u : UserId) (s : CMState) :
    ∀ cid mem, alookup (disconnect u s).channel_members cid = some mem → u ∉ mem := by
  unfold disconnect
  apply foldl_disconnectStep_clean
  intro cid mem hl
  exact Or.inr (alookup_some_mem_keys hl)

theorem disconnect_idem (u : UserId) (s : CMState) :
    disconnect u (disconnect u s) = disconnect u s := by
  have hclean := disconnect_clean u s
  show (let s0 := { disconnect u s with
      active_connections := adel (disconnect u s).active_connections u }
    ((disconnect u s).channel_members.map Prod.fst).foldl (disconnectStep u) s0) =
    disconnect u s
  have hact : adel (disconnect u s).active_connections u =
      (disconnect u s).active_connections := by
    rw [disconnect_active]
    exact adel_adel _ _
  simp only [hact]
  exact foldl_disconnectStep_id u _ _ hclean

/-! ### Lemmas about broadcast delivery -/

theorem broadcast_snd (c : ChannelId) (m : Nat) (ex : Option UserId)
    (fails : Socket → Bool) (s : CMState) :
    (broadcast_to_channel c m ex fails s).2 = bcEvents c m ex fails s := by
  unfold broadcast_to_channel
  split
  · rename_i hn
    simp [bcEvents, bcTargets, hn]
  · rfl

theorem mem_bcTargets {c : ChannelId} {ex : Option UserId} {s : CMState}
    {p : UserId × Socket} :
    p ∈ bcTargets c ex s ↔
      ∃ cc, alookup s.channel_connections c = some cc ∧ p ∈ cc ∧
        pyExcluded ex p.1 = false := by
  unfold bcTargets
  split
  · rename_i hn
    simp [hn]
  · rename_i cc hcc
    simp [hcc, List.mem_filter]

theorem mem_bcEvents_of_target {c : ChannelId} (m : Nat) {ex : Option UserId}
    {fails : Socket → Bool} {s : CMState} {p : UserId × Socket}
    (hp : p ∈ bcTargets c ex s) (hf : fails p.2 = false) :
    Ev.sentJson p.2 (Frame.payload m) ∈ bcEvents c m ex fails s := by
  unfold bcEvents
  exact List.mem_filterMap.mpr ⟨p, hp, by simp [hf]⟩

theorem bcEvents_shape {c : ChannelId} {m : Nat} {ex : Option UserId}
    {fails : Socket → Bool} {s : CMState} {ev : Ev}
    (h : ev ∈ bcEvents c m ex fails s) :
    ∃ p ∈ bcTargets c ex s, fails p.2 = false ∧
      ev = Ev.sentJson p.2 (Frame.payload m) := by
  unfold bcEvents at h
  rcases List.mem_filterMap.mp h with ⟨p, hp, he⟩
  by_cases hf : fails p.2
  · simp [hf] at he
  · simp only [Bool.not_eq_true] at hf
    simp [hf] at he
    exact ⟨p, hp, hf, he.symm⟩

theorem presenceLoop_eq (u : UserId) (st : String) (fails : Socket → Bool) :
    ∀ ws : List Socket,
    presenceLoop u st fails ws =
      ((ws.takeWhile (fun w => !fails w)).map
        (fun w => Ev.sentJson w (Frame.userStatus u st)),
       ws.all (fun w => !fails w)) := by
  intro ws
  induction ws with
  | nil => rfl
  | cons w rest ih =>
    by_cases hf : fails w
    · simp [presenceLoop, hf, List.takeWhile_cons, List.all_cons]
    · simp [presenceLoop, hf, List.takeWhile_cons, List.all_cons, ih]

theorem alookup_map_adel (l : AList ChannelId (AList UserId Socket)) (u : UserId)
    (k : ChannelId) :
    alookup (l.map (fun (p : ChannelId × AList UserId Socket) => (p.1, adel p.2 u))) k =
      (alookup l k).map (fun cc => adel cc u) :=
  alookup_map_snd l (fun cc => adel cc u) k

theorem connect_evicted (s : CMState) {tA : Socket} (tB : Socket) (u : UserId)
    (fails : Socket → Bool) (hA : alookup s.active_connections u = some tA) :
    (connect tB u fails s).1 =
      { active_connections := ains s.active_connections u tB,
        channel_members := s.channel_members,
        channel_connections := s.channel_connections.map
          (fun (p : ChannelId × AList UserId Socket) => (p.1, adel p.2 u)) } ∧
    Ev.closed tA ∈ (connect tB u fails s).2 := by
  unfold connect
  rw [hA]
  by_cases hf : fails tB <;> simp [hf]

/-! ### The claims -/

/-- C8 (amended): an inbound frame with an unknown `"type"` value, or one
`receive_json` could not parse, is silently ignored: the server sends no
frame at all (in particular no `error` frame), the manager state is
untouched, and the read loop continues; no other connection is affected. -/
theorem c8_unknown_frames_ignored (own_ws : Socket) (u : UserId)
    (fails : Socket → Bool) (s : CMState) (t : String) :
    handleInbound own_ws u fails s (Inbound.unknownType t) = (s, [], true) ∧
    handleInbound own_ws u fails s Inbound.malformedJson = (s, [], true) :=
  ⟨rfl, rfl⟩

/-- C8: counterexample to the claim as stated — on an unknown-type frame
(`"message"` is itself not handled by this loop) and on malformed JSON the
endpoint sends nothing to the originator, so no
`{"type":"error","message":...}` frame is produced; the loop just
continues. -/
theorem c8_counterexample :
    (handleInbound 10 1 (fun _ => false) ⟨[(1, 10)], [], []⟩
      (Inbound.unknownType "message")).2.1 = [] ∧
    (handleInbound 10 1 (fun _ => false) ⟨[(1, 10)], [], []⟩
      Inbound.malformedJson).2.1 = [] ∧
    (handleInbound 10 1 (fun _ => false) ⟨[(1, 10)], [], []⟩
      (Inbound.unknownType "message")).2.2 = true :=
  ⟨rfl, rfl, rfl⟩

/-- C9: `join_channel` is idempotent — joining the same channel twice with
the same websocket leaves the channel-members set and the
channel-connections map (indeed the whole manager state) identical to
joining once, and both calls succeed when the confirmation send does not
raise. -/
theorem c9_join_channel_idempotent (c : ChannelId) (u : UserId) (w : Socket)
    (fails : Socket → Bool) (s : CMState) (hw : fails w = false) :
    (join_channel c u w fails (join_channel c u w fails s).1).1 =
      (join_channel c u w fails s).1 ∧
    (join_channel c u w fails s).2.2 = true ∧
    (join_channel c u w fails (join_channel c u w fails s).1).2.2 = true := by
  refine ⟨?_, ?_, ?_⟩
  · unfold join_channel
    simp only [hw, Bool.false_eq_true, if_false]
    rw [alookup_ains_self, alookup_ains_self]
    simp only [Option.getD_some]
    rw [sadd_eq_of_mem (mem_sadd_self _ u), ains_ains, ains_ains, ains_ains]
  · unfold join_channel
    simp [hw]
  · unfold join_channel
    simp [hw]

/-- C9 witness: both joins at a concrete input succeed and the states
agree. -/
theorem c9_join_channel_idempotent_witness :
    (join_channel 5 1 10 (fun _ => false)
        (join_channel 5 1 10 (fun _ => false) initState).1).1 =
      (join_channel 5 1 10 (fun _ => false) initState).1 ∧
    (join_channel 5 1 10 (fun _ => false) initState).2.2 = true ∧
    (join_channel 5 1 10 (fun _ => false)
        (join_channel 5 1 10 (fun _ => false) initState).1).2.2 = true :=
  c9_join_channel_idempotent 5 1 10 (fun _ => false) initState rfl

/-- C10: every voice join resets the joiner's voice state to
`muted = false, speaking = false`, whatever the previous state was — in
`VoiceConnectionManager.connect` (voice.py) and in `join_voice_channel`
(websockets.py) alike — so a muted flag never survives a leave/rejoin
cycle. -/
theorem c10_voice_join_resets_state (ws : Socket) (c : String)
    (user : Voice.VUser) (fails : Socket → Bool) (s : Voice.VCMState)
    (ws2 : Socket) (cid : ChannelId) (uid : UserId) (fails2 : Socket → Bool)
    (g : VoiceGlobals) :
    alookup ((alookup (Voice.connect ws c user fails s).1.voice_states c).getD [])
        (toString user.id) = some ⟨false, false⟩ ∧
    alookup (join_voice_channel ws2 cid uid fails2 g).1.voice_states uid =
      some ⟨false, false⟩ := by
  constructor
  · unfold Voice.connect
    dsimp only
    rw [alookup_ains_self]
    simp only [Option.getD_some]
    exact alookup_ains_self _ _ _
  · unfold join_voice_channel
    dsimp only
    exact alookup_ains_self _ _ _

/-- C1: counterexample to the claim as stated — after a second
`connect(tB = 20)` for user 1 (previous transport `tA = 10`, a member of
text channel 5 and of voice channel 9), user 1 is still in
`channel_members[5]`, still in `voice_channel_users[9]`, and its muted
voice state survives: `connect` removes only the `channel_connections`
entries, never the memberships or any voice structure. -/
theorem c1_counterexample :
    1 ∈ (alookup (worldConnect 20 1 (fun _ => false)
        ⟨⟨[(1, 10)], [(5, [1])], [(5, [(1, 10)])]⟩,
         ⟨[(9, [10])], [(9, [1])], [(1, ⟨true, false⟩)]⟩⟩).1.cm.channel_members 5).getD [] ∧
    1 ∈ (alookup (worldConnect 20 1 (fun _ => false)
        ⟨⟨[(1, 10)], [(5, [1])], [(5, [(1, 10)])]⟩,
         ⟨[(9, [10])], [(9, [1])], [(1, ⟨true, false⟩)]⟩⟩).1.vg.voice_channel_users 9).getD [] ∧
    alookup (worldConnect 20 1 (fun _ => false)
        ⟨⟨[(1, 10)], [(5, [1])], [(5, [(1, 10)])]⟩,
         ⟨[(9, [10])], [(9, [1])], [(1, ⟨true, false⟩)]⟩⟩).1.vg.voice_states 1 =
      some ⟨true, false⟩ := by decide

/-- C2: counterexample to the claim as stated — broadcasting to channel 7
where delivery to user 2 (socket 11) fails removes user 2 from channel 7
only: user 2 keeps its `active_connections` entry and stays a member of
channel 8. -/
theorem c2_counterexample :
    alookup (broadcast_to_channel 7 0 none (fun ws => ws == 11)
        ⟨[(1, 10), (2, 11)], [(7, [1, 2]), (8, [2])],
         [(7, [(1, 10), (2, 11)]), (8, [(2, 11)])]⟩).1.active_connections 2 = some 11 ∧
    2 ∈ (alookup (broadcast_to_channel 7 0 none (fun ws => ws == 11)
        ⟨[(1, 10), (2, 11)], [(7, [1, 2]), (8, [2])],
         [(7, [(1, 10), (2, 11)]), (8, [(2, 11)])]⟩).1.channel_members 8).getD [] ∧
    alookup ((alookup (broadcast_to_channel 7 0 none (fun ws => ws == 11)
        ⟨[(1, 10), (2, 11)], [(7, [1, 2]), (8, [2])],
         [(7, [(1, 10), (2, 11)]), (8, [(2, 11)])]⟩).1.channel_connections 7).getD [])
      2 = none := by decide

/-- C3: counterexample to the claimed invariant — the call sequence
`connect(10, 1); disconnect(1); join_channel(5, 1, 10)` reaches a state in
which `broadcast_to_channel(5, ...)` sends to the pair `(user 1, socket
10)` although user 1 has no `active_connections` entry at all:
`broadcast_to_channel` iterates `channel_connections` and never consults
the registry. -/
theorem c3_counterexample :
    (1, 10) ∈ bcTargets 5 none
      (run (fun _ => false) [Op.connect 10 1, Op.disconnect 1, Op.join 5 1 10]) ∧
    alookup (run (fun _ => false)
      [Op.connect 10 1, Op.disconnect 1, Op.join 5 1 10]).active_connections 1 = none ∧
    Ev.sentJson 10 (Frame.payload 0) ∈
      (broadcast_to_channel 5 0 none (fun _ => false)
        (run (fun _ => false) [Op.connect 10 1, Op.disconnect 1, Op.join 5 1 10])).2 := by
  decide

/-- C4: counterexample to the claim as stated — in the global presence
announcement a failure on the first connection (socket 10) aborts the
loop, so the healthy second connection (socket 11) is never attempted:
the delivered event list is empty and the loop raised. -/
theorem c4_counterexample :
    (broadcast_presence 1 "away" (fun ws => ws == 10) ⟨[(1, 10), (2, 11)], [], []⟩).1 = [] ∧
    (broadcast_presence 1 "away" (fun ws => ws == 10) ⟨[(1, 10), (2, 11)], [], []⟩).2 = false ∧
    (fun ws : Socket => ws == 10) 11 = false := by decide

/-- C5: counterexample to the claim as stated — running the disconnect
cascade for user 1 twice in a row emits the presence-offline announcement
twice (once per run, delivered to the remaining connection, socket 11),
not exactly once. -/
theorem c5_counterexample :
    (disconnectCascade 1 (fun _ => false)
      ⟨⟨[(1, 10), (2, 11)], [], []⟩, [(1, "online"), (2, "online")]⟩).2 =
      [Ev.sentJson 11 (Frame.userStatus 1 "offline")] ∧
    (disconnectCascade 1 (fun _ => false)
      (disconnectCascade 1 (fun _ => false)
        ⟨⟨[(1, 10), (2, 11)], [], []⟩, [(1, "online"), (2, "online")]⟩).1).2 =
      [Ev.sentJson 11 (Frame.userStatus 1 "offline")] := by decide

/-- C6: counterexample to the claim as stated — broadcasting to channel 5
with `exclude_user_id = 0` still delivers to user 0 (socket 10): the
guard `if exclude_user_id and ...` is skipped because `0` is falsy in
Python. -/
theorem c6_counterexample :
    Ev.sentJson 10 (Frame.payload 42) ∈
      (broadcast_to_channel 5 42 (some 0) (fun _ => false)
        ⟨[(0, 10), (1, 11)], [(5, [0, 1])], [(5, [(0, 10), (1, 11)])]⟩).2 := by decide

/-- C7: counterexample to the claim as stated — in the mounted
websockets.py relay, user 1 (socket 10) is muted in voice channel 3, yet
`broadcast_voice` still delivers its audio frame to the other participant
(socket 11): this relay never consults `voice_states`. -/
theorem c7_counterexample :
    alookup (VoiceGlobals.voice_states
        ⟨[(3, [10, 11])], [(3, [1, 2])], [(1, ⟨true, false⟩)]⟩) 1 =
      some ⟨true, false⟩ ∧
    broadcast_voice 10 3 (fun _ => false)
        ⟨[(3, [10, 11])], [(3, [1, 2])], [(1, ⟨true, false⟩)]⟩ =
      [Ev.sentBytes 11] := by decide

/-- C1 (amended): a second `connect(tB)` for user `u` closes the old
transport `tA`, deletes `u`'s entry from every channel's connection map
and registers `tB`, so afterwards `active_connections[u] = tB` and no
channel broadcast from the resulting state sends to `tA` (when `tA` was
registered only under `u`); but `u` is NOT removed from the
`channel_members` sets, and the voice membership structures are untouched
entirely. -/
theorem c1_reconnect_replaces (s : CMState) (vg : VoiceGlobals)
    (tA tB : Socket) (u : UserId) (fails : Socket → Bool)
    (hA : alookup s.active_connections u = some tA)
    (honly : ∀ c cc u', alookup s.channel_connections c = some cc →
      (u', tA) ∈ cc → u' = u) :
    Ev.closed tA ∈ (worldConnect tB u fails ⟨s, vg⟩).2 ∧
    alookup (worldConnect tB u fails ⟨s, vg⟩).1.cm.active_connections u = some tB ∧
    (∀ c cc', alookup (worldConnect tB u fails ⟨s, vg⟩).1.cm.channel_connections c =
      some cc' → alookup cc' u = none) ∧
    (worldConnect tB u fails ⟨s, vg⟩).1.cm.channel_members = s.channel_members ∧
    (worldConnect tB u fails ⟨s, vg⟩).1.vg = vg ∧
    (∀ c ex p, p ∈ bcTargets c ex (worldConnect tB u fails ⟨s, vg⟩).1.cm → p.2 ≠ tA) := by
  obtain ⟨hstate, hclosed⟩ := connect_evicted s tB u fails hA
  have hcm : (worldConnect tB u fails ⟨s, vg⟩).1.cm = (connect tB u fails s).1 := rfl
  have hevs : (worldConnect tB u fails ⟨s, vg⟩).2 = (connect tB u fails s).2 := rfl
  refine ⟨hevs ▸ hclosed, ?_, ?_, ?_, rfl, ?_⟩
  · rw [hcm, hstate]
    exact alookup_ains_self _ _ _
  · intro c cc' hl
    rw [hcm, hstate] at hl
    dsimp only at hl
    rw [alookup_map_adel] at hl
    cases hcc : alookup s.channel_connections c with
    | none => rw [hcc] at hl; cases hl
    | some cc0 =>
      rw [hcc] at hl
      simp only [Option.map_some'] at hl
      cases hl
      exact alookup_adel_self cc0 u
  · rw [hcm, hstate]
  · intro c ex p hp
    rcases mem_bcTargets.mp hp with ⟨cc', hcc', hpin, _⟩
    rw [hcm, hstate] at hcc'
    dsimp only at hcc'
    rw [alookup_map_adel] at hcc'
    cases hcc0 : alookup s.channel_connections c with
    | none => rw [hcc0] at hcc'; cases hcc'
    | some cc0 =>
      rw [hcc0] at hcc'
      simp only [Option.map_some'] at hcc'
      cases hcc'
      obtain ⟨hpin0, hpne⟩ := mem_adel hpin
      intro heq
      apply hpne
      apply honly c cc0 p.1 hcc0
      have : (p.1, p.2) ∈ cc0 := by simpa using hpin0
      rw [heq] at this
      exact this

/-- C1 witness: the amended theorem applied to a concrete one-channel
state with both hypotheses discharged. -/
theorem c1_reconnect_replaces_witness :
    alookup (([(1, 10)] : AList UserId Socket)) 1 = some 10 ∧
    Ev.closed 10 ∈ (worldConnect 20 1 (fun _ => false)
      ⟨⟨[(1, 10)], [(5, [1])], [(5, [(1, 10)])]⟩, ⟨[], [], []⟩⟩).2 ∧
    (worldConnect 20 1 (fun _ => false)
      ⟨⟨[(1, 10)], [(5, [1])], [(5, [(1, 10)])]⟩, ⟨[], [], []⟩⟩).1.cm.channel_members =
      [(5, [1])] := by
  have honly : ∀ (c : ChannelId) (cc : AList UserId Socket) (u' : UserId),
      alookup ([(5, [(1, 10)])] : AList ChannelId (AList UserId Socket)) c = some cc →
      (u', (10 : Socket)) ∈ cc → u' = 1 := by
    intro c cc u' h1 h2
    by_cases hc : (5 : Int) = c
    · simp [alookup, hc] at h1
      subst h1
      simpa using h2
    · simp [alookup, hc] at h1
  have h := c1_reconnect_replaces ⟨[(1, 10)], [(5, [1])], [(5, [(1, 10)])]⟩
    ⟨[], [], []⟩ 10 20 1 (fun _ => false) rfl honly
  exact ⟨rfl, h.1, h.2.2.2.1⟩

/-- C2 (amended): a delivery failure during `broadcast_to_channel(c, ...)`
removes each failed user from channel `c` only — its entry in
`channel_connections[c]` and its membership in `channel_members[c]` —
while `active_connections` and every other channel's member set and
connection map are left untouched. -/
theorem c2_stale_cleanup_single_channel (c : ChannelId) (m : Nat)
    (ex : Option UserId) (fails : Socket → Bool) (s : CMState)
    (hm : (alookup s.channel_members c).isSome) :
    (broadcast_to_channel c m ex fails s).1.active_connections =
      s.active_connections ∧
    (∀ c', c' ≠ c →
      alookup (broadcast_to_channel c m ex fails s).1.channel_members c' =
        alookup s.channel_members c' ∧
      alookup (broadcast_to_channel c m ex fails s).1.channel_connections c' =
        alookup s.channel_connections c') ∧
    (∀ u ∈ bcFailedUsers c ex fails s,
      alookup ((alookup (broadcast_to_channel c m ex fails s).1.channel_connections c).getD [])
        u = none ∧
      u ∉ (alookup (broadcast_to_channel c m ex fails s).1.channel_members c).getD []) := by
  unfold broadcast_to_channel
  split
  · rename_i hn
    refine ⟨rfl, fun c' _ => ⟨rfl, rfl⟩, ?_⟩
    intro u hu
    unfold bcFailedUsers bcTargets at hu
    rw [hn] at hu
    cases hu
  · exact ⟨bcCleanup_active c _ s, fun c' h => bcCleanup_lookup_ne c _ s h,
      fun u hu => bcCleanup_clears c _ s hm u hu⟩

/-- C2 witness: the amended theorem at a concrete two-channel state where
delivery to user 2 (socket 11) fails. -/
theorem c2_stale_cleanup_single_channel_witness :
    (alookup ([(7, [1, 2]), (8, [2])] : AList ChannelId (List UserId)) 7).isSome = true ∧
    2 ∉ (alookup (broadcast_to_channel 7 0 none (fun ws => ws == 11)
      ⟨[(1, 10), (2, 11)], [(7, [1, 2]), (8, [2])],
       [(7, [(1, 10), (2, 11)]), (8, [(2, 11)])]⟩).1.channel_members 7).getD [] :=
  ⟨rfl, ((c2_stale_cleanup_single_channel 7 0 none (fun ws => ws == 11)
    ⟨[(1, 10), (2, 11)], [(7, [1, 2]), (8, [2])],
     [(7, [(1, 10), (2, 11)]), (8, [(2, 11)])]⟩ rfl).2.2 2 (by decide)).2⟩

/-- C3 (amended): `broadcast_to_channel` resolves its recipients from
`channel_connections` alone — the delivered events are exactly one copy
per non-excluded, non-failing entry of `channel_connections[c]`, and both
the targets and the delivered events are invariant under arbitrary
replacement of `active_connections` — so the registry is never consulted
and the claimed invariant fails on reachable states (see the
counterexample: `connect; disconnect; join_channel` reaches a state where
a broadcast delivers to a socket with no registry entry). -/
theorem c3_broadcast_ignores_registry (c : ChannelId) (m : Nat)
    (ex : Option UserId) (fails : Socket → Bool) (s : CMState)
    (act' : AList UserId Socket) :
    (broadcast_to_channel c m ex fails s).2 =
      (bcTargets c ex s).filterMap (fun p =>
        if fails p.2 then none else some (Ev.sentJson p.2 (Frame.payload m))) ∧
    (broadcast_to_channel c m ex fails { s with active_connections := act' }).2 =
      (broadcast_to_channel c m ex fails s).2 ∧
    bcTargets c ex { s with active_connections := act' } = bcTargets c ex s := by
  refine ⟨broadcast_snd c m ex fails s, ?_, rfl⟩
  rw [broadcast_snd, broadcast_snd]
  rfl

/-- C4 (amended): in channel-scoped broadcasts each target is attempted
independently — a non-failing target receives the message no matter which
other targets fail — but the global presence announcement is not
independent: its delivered events are exactly the prefix of
`active_connections` up to the first failing socket, so one failure
prevents delivery to every connection listed after it. -/
theorem c4_partial_independence (c : ChannelId) (m : Nat) (ex : Option UserId)
    (fails : Socket → Bool) (s : CMState) (p : UserId × Socket)
    (u : UserId) (st : String)
    (hp : p ∈ bcTargets c ex s) (hf : fails p.2 = false) :
    Ev.sentJson p.2 (Frame.payload m) ∈ (broadcast_to_channel c m ex fails s).2 ∧
    (broadcast_presence u st fails s).1 =
      ((s.active_connections.map Prod.snd).takeWhile (fun w => !fails w)).map
        (fun w => Ev.sentJson w (Frame.userStatus u st)) := by
  constructor
  · rw [broadcast_snd]
    exact mem_bcEvents_of_target m hp hf
  · unfold broadcast_presence
    rw [presenceLoop_eq]

/-- C4 witness: with socket 10 failing, the healthy channel target
`(2, 11)` is still delivered to. -/
theorem c4_partial_independence_witness :
    ((2, 11) : UserId × Socket) ∈ bcTargets 5 none
      ⟨[(1, 10), (2, 11)], [(5, [1, 2])], [(5, [(1, 10), (2, 11)])]⟩ ∧
    Ev.sentJson 11 (Frame.payload 3) ∈
      (broadcast_to_channel 5 3 none (fun ws => ws == 10)
        ⟨[(1, 10), (2, 11)], [(5, [1, 2])], [(5, [(1, 10), (2, 11)])]⟩).2 :=
  ⟨by decide, (c4_partial_independence 5 3 none (fun ws => ws == 10)
    ⟨[(1, 10), (2, 11)], [(5, [1, 2])], [(5, [(1, 10), (2, 11)])]⟩
    (2, 11) 1 "away" (by decide) rfl).1⟩

/-- C5 (amended): the disconnect cascade is idempotent on state — a second
run leaves the registry, the channel membership maps and the database
status column exactly as after the first — but the presence-offline
announcement is unconditional: the second run emits exactly the same
announcement events as the first (one per remaining connection), so two
runs announce twice, not once. -/
theorem c5_cascade_state_idempotent_but_reannounces (u : UserId)
    (fails : Socket → Bool) (e : EndpointState) :
    (disconnectCascade u fails (disconnectCascade u fails e).1).1 =
      (disconnectCascade u fails e).1 ∧
    (disconnectCascade u fails (disconnectCascade u fails e).1).2 =
      (disconnectCascade u fails e).2 := by
  unfold disconnectCascade
  dsimp only
  rw [disconnect_idem, ains_ains]
  exact ⟨rfl, rfl⟩

/-- C6 (amended): for every nonzero excluded id `e`,
`broadcast_to_channel` skips all of user `e`'s entries and its targets are
exactly the channel's connection entries of other users, each delivered
one copy when its socket does not fail; an excluded id of `0` is ignored
by the falsy guard (see the counterexample), so user 0 is never excluded. -/
theorem c6_exclusion_nonzero (c : ChannelId) (m : Nat) (e : UserId)
    (fails : Socket → Bool) (s : CMState) (he : e ≠ 0) :
    (∀ ws, (e, ws) ∉ bcTargets c (some e) s) ∧
    bcTargets c (some e) s =
      ((alookup s.channel_connections c).getD []).filter
        (fun p => decide (p.1 ≠ e)) ∧
    (broadcast_to_channel c m (some e) fails s).2 =
      (bcTargets c (some e) s).filterMap (fun p =>
        if fails p.2 then none else some (Ev.sentJson p.2 (Frame.payload m))) := by
  refine ⟨?_, ?_, broadcast_snd c m (some e) fails s⟩
  · intro ws hmem
    rcases mem_bcTargets.mp hmem with ⟨cc, _, _, hex⟩
    simp [pyExcluded, he] at hex
  · unfold bcTargets
    split
    · rename_i hn
      rw [hn]
      rfl
    · rename_i cc hcc
      rw [hcc]
      simp only [Option.getD_some]
      apply List.filter_congr
      intro p _
      simp [pyExcluded, he, decide_not]

/-- C6 witness: excluding the nonzero user 2 keeps every entry of user 2
out of the targets of a concrete broadcast. -/
theorem c6_exclusion_nonzero_witness :
    ((2 : UserId) ≠ 0) ∧
    (∀ ws, ((2 : UserId), ws) ∉ bcTargets 5 (some 2)
      ⟨[], [(5, [1, 2])], [(5, [(1, 10), (2, 11)])]⟩) :=
  ⟨by decide, (c6_exclusion_nonzero 5 0 2 (fun _ => false)
    ⟨[], [(5, [1, 2])], [(5, [(1, 10), (2, 11)])]⟩ (by decide)).1⟩

/-- C7 (amended): the voice.py relay (`broadcast_voice_data`) behaves as
claimed — a muted sender's frame is delivered to nobody, an unmuted
sender's frame is attempted exactly at the other participants' entries and
never at a sender entry — but the websockets.py relay (`broadcast_voice`,
behind the mounted `/ws/voice/{channel_id}` endpoint) never reads the
sender's voice state: it relays to every other socket regardless of the
muted flag (see the counterexample), though it also never echoes to the
sender's socket. -/
theorem c7_voice_relay (c sender : String) (fails : Socket → Bool)
    (s : Voice.VCMState) (vs : Voice.VoiceState) (conns : AList String Socket)
    (cid : ChannelId) (sws : Socket) (g : VoiceGlobals)
    (vsts : AList UserId VState)
    (hconns : alookup s.active_connections c = some conns)
    (hvs : alookup ((alookup s.voice_states c).getD []) sender = some vs) :
    (vs.muted = true → Voice.broadcast_voice_data c sender fails s = []) ∧
    (vs.muted = false →
      Voice.broadcast_voice_data c sender fails s =
        (conns.filter (fun p => decide (p.1 ≠ sender))).filterMap
          (fun p => if fails p.2 then none else some (Ev.sentBytes p.2))) ∧
    (∀ ev ∈ Voice.broadcast_voice_data c sender fails s,
      ∃ p, p ∈ conns ∧ p.1 ≠ sender ∧ ev = Ev.sentBytes p.2) ∧
    broadcast_voice sws cid fails { g with voice_states := vsts } =
      broadcast_voice sws cid fails g ∧
    Ev.sentBytes sws ∉ broadcast_voice sws cid fails g := by
  refine ⟨?_, ?_, ?_, ?_, ?_⟩
  · intro hmut
    unfold Voice.broadcast_voice_data
    rw [hconns, hvs]
    simp [hmut]
  · intro hmut
    unfold Voice.broadcast_voice_data
    rw [hconns, hvs]
    simp [hmut]
  · intro ev hev
    unfold Voice.broadcast_voice_data at hev
    rw [hconns, hvs] at hev
    dsimp only at hev
    by_cases hmut : vs.muted
    · simp [hmut] at hev
    · simp only [Bool.not_eq_true] at hmut
      simp only [hmut, Bool.false_eq_true, if_false] at hev
      rcases List.mem_filterMap.mp hev with ⟨p, hpin, hpe⟩
      rcases List.mem_filter.mp hpin with ⟨hpc, hpne⟩
      by_cases hfp : fails p.2
      · simp [hfp] at hpe
      · simp only [Bool.not_eq_true] at hfp
        simp [hfp] at hpe
        exact ⟨p, hpc, by simpa using hpne, hpe.symm⟩
  · cases g
    rfl
  · intro hecho
    unfold broadcast_voice at hecho
    cases hvc : alookup g.voice_channels cid with
    | none => rw [hvc] at hecho; cases hecho
    | some chanSet =>
      rw [hvc] at hecho
      rcases List.mem_filterMap.mp hecho with ⟨ws, hwin, hwe⟩
      rcases List.mem_filter.mp hwin with ⟨_, hwne⟩
      by_cases hfw : fails ws
      · simp [hfw] at hwe
      · simp only [Bool.not_eq_true] at hfw
        simp [hfw] at hwe
        simp [hwe] at hwne

/-- C7 witness: at a concrete voice.py state with a muted sender, the
relay sends nothing. -/
theorem c7_voice_relay_witness :
    alookup (Voice.VCMState.active_connections
        ⟨[("3", [("1", 10), ("2", 11)])], [],
         [("3", [("1", ⟨false, true⟩)])]⟩) "3" = some [("1", 10), ("2", 11)] ∧
    Voice.broadcast_voice_data "3" "1" (fun _ => false)
        ⟨[("3", [("1", 10), ("2", 11)])], [],
         [("3", [("1", ⟨false, true⟩)])]⟩ = [] :=
  ⟨rfl, (c7_voice_relay "3" "1" (fun _ => false)
    ⟨[("3", [("1", 10), ("2", 11)])], [], [("3", [("1", ⟨false, true⟩)])]⟩
    ⟨false, true⟩ [("1", 10), ("2", 11)] 0 0 ⟨[], [], []⟩ []
    rfl rfl).1 rfl⟩

end Sermo
